import Mathlib

/-!
# Shallow embedding of the Shopify ↔ Scan2Ship integration core

This file embeds, in Lean, the core logic of the repository's webhook
handlers and helpers:

* the HMAC signature verifiers `verifyShopifyHMAC` / `verifyScan2ShipHMAC`
  (rates endpoint and Scan2Ship webhook endpoint), over a model of Node's
  lenient base64 decoding and of `crypto.timingSafeEqual` (which throws on
  byte-length mismatch);
* the order-sync path of the ORDERS_CREATE webhook
  (`checkScan2ShipCredits`, `mapShopifyOrderToScan2Ship`,
  `retryWithBackoff`, `addToDeadLetterQueue`, `syncOrderToScan2Ship`, and
  the route `action`);
* the carrier rates endpoint (`getScan2ShipCourierServices`,
  `getScan2ShipRates`, `getFallbackRate`, and its `action`);
* the Scan2Ship order-ready webhook `action`;
* the fulfillment write-back helpers (`extractShopifyOrderId`,
  `processFulfillment`).

Modelling conventions: external I/O (fetch calls, GraphQL) is supplied by
explicit environment records describing each call's outcome; JavaScript
exceptions are `Except`; JS string falsiness (`!s`) is emptiness; monetary
amounts that the source holds as decimal strings and reads via `parseFloat`
are modelled as rationals carrying the parsed value; the HMAC-SHA256
base64 digest `crypto.createHmac(...).digest('base64')` is an abstract
parameter `digestB64 : String → String → String` (its one relevant
property, that it decodes to a 32-byte digest, is a hypothesis where
needed).
-/

namespace Scan2Ship

/-! ## Base64 (Node `Buffer.from(s, 'base64')` and base64 encoding)

Node's base64 decoder is lenient: characters outside the base64 alphabet
(including `=` padding) are skipped, and a trailing group of 2 or 3
sextets contributes 1 or 2 bytes (a lone trailing sextet contributes
nothing). -/

/-- Value of a base64 alphabet character, `none` for anything else. -/
def b64CharVal (c : Char) : Option Nat :=
  if 'A' ≤ c ∧ c ≤ 'Z' then some (c.toNat - 65)
  else if 'a' ≤ c ∧ c ≤ 'z' then some (c.toNat - 97 + 26)
  else if '0' ≤ c ∧ c ≤ '9' then some (c.toNat - 48 + 52)
  else if c = '+' then some 62
  else if c = '/' then some 63
  else none

/-- Reassemble bytes from 6-bit groups (4 sextets → 3 bytes; trailing
2 → 1, trailing 3 → 2, lone trailing sextet dropped). -/
def sextetsToBytes : List Nat → List Nat
  | a :: b :: c :: d :: rest =>
      (a * 4 + b / 16) :: ((b % 16) * 16 + c / 4) :: ((c % 4) * 64 + d)
        :: sextetsToBytes rest
  | [a, b] => [a * 4 + b / 16]
  | [a, b, c] => [a * 4 + b / 16, (b % 16) * 16 + c / 4]
  | _ => []

/-- Model of `Buffer.from(s, 'base64')`: the byte list it denotes. -/
def base64Decode (s : String) : List Nat :=
  sextetsToBytes (s.data.filterMap b64CharVal)

/-- Model of `crypto.timingSafeEqual(a, b)`: throws (`.error`) when the
two buffers have different byte lengths, otherwise returns their
(constant-time) equality. -/
def timingSafeEqual (a b : List Nat) : Except String Bool :=
  if a.length = b.length then .ok (a = b)
  else .error "Input buffers must have the same byte length"

/-! ## Signature verifiers (app.rates-sandbox.tsx `verifyShopifyHMAC`,
part_002 `verifyScan2ShipHMAC`; the two function bodies are identical) -/

/-- `verifyShopifyHMAC(body, signature, secret)`. `digestB64 body secret`
models `crypto.createHmac('sha256', secret).update(body, 'utf8')
.digest('base64')`. Returns `.error` where the source throws (inside
`crypto.timingSafeEqual`). -/
def verifyShopifyHMAC (digestB64 : String → String → String)
    (body signature secret : String) : Except String Bool :=
  if signature = "" ∨ secret = "" then .ok false
  else timingSafeEqual (base64Decode signature)
    (base64Decode (digestB64 body secret))

/-- `verifyScan2ShipHMAC(body, signature, secret)` — same body as
`verifyShopifyHMAC`, used by the Scan2Ship order-ready webhook. -/
def verifyScan2ShipHMAC (digestB64 : String → String → String)
    (body signature secret : String) : Except String Bool :=
  if signature = "" ∨ secret = "" then .ok false
  else timingSafeEqual (base64Decode signature)
    (base64Decode (digestB64 body secret))

/-- A fixed stand-in digest function used for concrete evaluations: it
returns the base64 encoding of thirty-two zero bytes (43 `'A'`s and one
padding `'='`), which decodes to a 32-byte buffer exactly as a real
HMAC-SHA256 base64 digest does. -/
def digestZero (_body _secret : String) : String :=
  String.mk (List.replicate 43 'A') ++ "="

example : (base64Decode (digestZero "x" "y")).length = 32 := by decide

example : base64Decode "AAAA" = [0, 0, 0] := by decide

/-! ## Data model of webhooks.orders.create.tsx -/

/-- Shopify postal address (`shipping_address` / `billing_address`).
Optional string fields model JSON fields that may be absent; JS truthiness
additionally treats the empty string as absent. -/
structure ShopifyAddress where
  first_name : String
  last_name : String
  company : Option String := none
  address1 : String
  address2 : Option String := none
  city : String
  province : String
  country : String
  zip : String
  phone : Option String := none
  deriving Repr, DecidableEq

structure ShopifyCustomer where
  id : Int
  email : String
  first_name : String
  last_name : String
  phone : Option String := none
  deriving Repr, DecidableEq

/-- A Shopify order line item. `price` carries the value `parseFloat`
reads off the source's decimal string; `weight` is `none` when the JSON
field is absent. -/
structure ShopifyLineItem where
  id : Int
  title : String
  quantity : Nat
  price : ℚ
  sku : Option String := none
  weight : Option ℚ := none
  requires_shipping : Bool
  deriving Repr, DecidableEq

structure ShopifyOrder where
  id : Int
  order_number : Int
  name : String
  total_price : ℚ
  currency : String
  customer : Option ShopifyCustomer := none
  shipping_address : Option ShopifyAddress := none
  billing_address : Option ShopifyAddress := none
  line_items : List ShopifyLineItem
  financial_status : String
  fulfillment_status : Option String := none
  created_at : String := ""
  updated_at : String := ""
  deriving Repr, DecidableEq

structure Scan2ShipAddress where
  street : String
  city : String
  state : String
  country : String
  postalCode : String
  deriving Repr, DecidableEq

structure Scan2ShipLineItem where
  name : String
  sku : Option String
  quantity : Nat
  weight : ℚ
  value : ℚ
  deriving Repr, DecidableEq

structure Scan2ShipMetadata where
  shopifyOrderId : Int
  shopifyOrderNumber : Int
  shop : String
  deriving Repr, DecidableEq

structure Scan2ShipOrder where
  name : String
  phones : List String
  address : Scan2ShipAddress
  cod : Bool
  lineItems : List Scan2ShipLineItem
  declaredValue : ℚ
  currency : String
  reference : String
  metadata : Option Scan2ShipMetadata := none
  deriving Repr, DecidableEq

inductive MappingStatus
  | pending
  | created
  | failed
  deriving Repr, DecidableEq

structure OrderMapping where
  shop : String
  shopifyOrderId : Int
  scan2shipOrderId : String
  waybill : Option String := none
  status : MappingStatus
  createdAt : String
  updatedAt : String
  deriving Repr, DecidableEq

structure DeadLetterEntry where
  shop : String
  shopifyOrderId : Int
  error : String
  timestamp : String
  retryCount : Nat
  deriving Repr, DecidableEq

/-! ## checkScan2ShipCredits -/

/-- Outcome of the one `fetch` in `checkScan2ShipCredits`:
the call throws, responds non-OK (`!response.ok`, status recorded), or
responds OK with a JSON body whose `balance` field may be absent. -/
inductive CreditsFetch
  | throws (msg : String)
  | respErr (status : Nat)
  | respOk (balance : Option Int)
  deriving Repr, DecidableEq

structure CreditsResult where
  balance : Int
  sufficient : Bool
  deriving Repr, DecidableEq

/-- `checkScan2ShipCredits()`: a thrown error or non-OK response is caught
and reported as `{balance: 0, sufficient: false}`; otherwise
`balance = data.balance || 0` and `sufficient = balance >= 1`
(`requiredCredits = 1`). Never throws. -/
def checkScan2ShipCredits (fetchResult : CreditsFetch) : CreditsResult :=
  match fetchResult with
  | .throws _ => { balance := 0, sufficient := false }
  | .respErr _ => { balance := 0, sufficient := false }
  | .respOk b =>
      let balance := b.getD 0
      { balance, sufficient := decide (1 ≤ balance) }

/-! ## mapShopifyOrderToScan2Ship -/

/-- JS truthiness of an optional string field: present and nonempty. -/
def jsTruthy : Option String → Bool
  | none => false
  | some s => !s.isEmpty

/-- The deduplicated phone list: the customer phone when truthy, then the
address phone when truthy and not already present. -/
def collectPhones (customerPhone addressPhone : Option String) : List String :=
  let phones : List String :=
    match customerPhone with
    | some p => if p.isEmpty then [] else [p]
    | none => []
  match addressPhone with
  | some p => if !p.isEmpty && !phones.contains p then phones ++ [p] else phones
  | none => phones

/-- `mapShopifyOrderToScan2Ship(shopifyOrder, shop)`: throws
(`.error`) when neither shipping nor billing address exists, otherwise
builds the normalized `Scan2ShipOrder`. -/
def mapShopifyOrderToScan2Ship (shopifyOrder : ShopifyOrder) (shop : String) :
    Except String Scan2ShipOrder :=
  match shopifyOrder.shipping_address.orElse (fun _ => shopifyOrder.billing_address) with
  | none => .error "No shipping or billing address found"
  | some address =>
    let cod := shopifyOrder.financial_status == "pending"
            || shopifyOrder.financial_status == "partially_paid"
    let declaredValue := shopifyOrder.total_price
    let lineItems := (shopifyOrder.line_items.filter (·.requires_shipping)).map
      (fun item =>
        { name := item.title
          sku := item.sku
          quantity := item.quantity
          weight := item.weight.getD 0
          value := item.price } : ShopifyLineItem → Scan2ShipLineItem)
    let phones := collectPhones (shopifyOrder.customer.bind (·.phone)) address.phone
    .ok
      { name := (address.first_name ++ " " ++ address.last_name).trim
        phones
        address :=
          { street := (address.address1 ++
              (match address.address2 with
               | some a2 => if a2.isEmpty then "" else ", " ++ a2
               | none => "")).trim
            city := address.city
            state := address.province
            country := address.country
            postalCode := address.zip }
        cod
        lineItems
        declaredValue
        currency := shopifyOrder.currency
        reference := "SHOPIFY-" ++ toString shopifyOrder.order_number
        metadata := some
          { shopifyOrderId := shopifyOrder.id
            shopifyOrderNumber := shopifyOrder.order_number
            shop } }

/-! ## retryWithBackoff -/

/-- Result of an order-creation call (`createScan2ShipOrder`): the
resolved `orderId` (`data.orderId || data.id`) and optional waybill. A
thrown error or non-OK response is modelled as `Except.error` with the
thrown message. -/
structure CreateResp where
  orderId : String
  waybill : Option String := none
  deriving Repr, DecidableEq

/-- Observable outcome of `retryWithBackoff`: final result, number of
times the operation ran, and the list of delays slept (in order). -/
structure RetryResult (ε α : Type) where
  result : Except ε α
  attempts : Nat
  delays : List Nat
  deriving Repr

/-- The `for (attempt = 0; attempt <= maxRetries; attempt++)` loop of
`retryWithBackoff`, from iteration `attempt` on, with
`remaining = maxRetries - attempt` iterations left after this one.
`op i` is the outcome of the operation's `(i+1)`-th run. On failure the
loop breaks exactly when `attempt === maxRetries`, i.e. `remaining = 0`;
otherwise it sleeps `baseDelay * 2 ^ attempt` and retries. -/
def retryGo (op : Nat → Except ε α) (baseDelay attempt : Nat) :
    Nat → RetryResult ε α
  | 0 =>
      match op attempt with
      | .ok a => ⟨.ok a, 1, []⟩
      | .error e => ⟨.error e, 1, []⟩
  | remaining + 1 =>
      match op attempt with
      | .ok a => ⟨.ok a, 1, []⟩
      | .error _ =>
          let r := retryGo op baseDelay (attempt + 1) remaining
          ⟨r.result, r.attempts + 1, baseDelay * 2 ^ attempt :: r.delays⟩

/-- `retryWithBackoff(operation, maxRetries = 3, baseDelay = 1000)`:
the loop starts at `attempt = 0` with `maxRetries` iterations
remaining. -/
def retryWithBackoff (op : Nat → Except ε α) (maxRetries baseDelay : Nat) :
    RetryResult ε α :=
  retryGo op baseDelay 0 maxRetries

/-! ## addToDeadLetterQueue / storeOrderMapping / syncOrderToScan2Ship -/

/-- Durable state touched by the sync path: the order-mapping store and
the dead-letter queue (the source logs the records it would persist; the
lists model the stored rows, appended per call). -/
structure SyncState where
  mappings : List OrderMapping
  deadLetters : List DeadLetterEntry
  deriving Repr, DecidableEq

/-- Environment of one `syncOrderToScan2Ship` run: the credits fetch
outcome, the outcome of each successive order-creation call, and the
current timestamp (`new Date().toISOString()`). -/
structure SyncEnv where
  credits : CreditsFetch
  backend : Nat → Except String CreateResp
  now : String

/-- `addToDeadLetterQueue(shop, orderId, error)`: appends one entry with
`retryCount: 0`. -/
def addToDeadLetterQueue (shop : String) (orderId : Int) (errMsg : String)
    (now : String) (st : SyncState) : SyncState :=
  { st with deadLetters := st.deadLetters ++
      [{ shop, shopifyOrderId := orderId, error := errMsg,
         timestamp := now, retryCount := 0 }] }

/-- Observable outcome of `syncOrderToScan2Ship`: final state, thrown
error or success, the number of credit-balance queries made, the number
of order-creation calls made, and the retry delays slept. -/
structure SyncOutcome where
  state : SyncState
  result : Except String Unit
  creditCalls : Nat
  createCalls : Nat
  delays : List Nat

/-- `syncOrderToScan2Ship(shopifyOrder, shop)`: credit check, transform,
dispatch through `retryWithBackoff(·, 3, 1000)`, store mapping on
success, dead-letter and rethrow on any failure. It performs no lookup of
an existing mapping. -/
def syncOrderToScan2Ship (env : SyncEnv) (st : SyncState)
    (shopifyOrder : ShopifyOrder) (shop : String) : SyncOutcome :=
  let credits := checkScan2ShipCredits env.credits
  if !credits.sufficient then
    let msg := "Insufficient credits. Balance: " ++ toString credits.balance
      ++ ", Required: 1"
    ⟨addToDeadLetterQueue shop shopifyOrder.id msg env.now st, .error msg, 1, 0, []⟩
  else
    match mapShopifyOrderToScan2Ship shopifyOrder shop with
    | .error msg =>
        ⟨addToDeadLetterQueue shop shopifyOrder.id msg env.now st, .error msg, 1, 0, []⟩
    | .ok _scan2shipOrder =>
        let r := retryWithBackoff env.backend 3 1000
        match r.result with
        | .ok resp =>
            let mapping : OrderMapping :=
              { shop, shopifyOrderId := shopifyOrder.id
                scan2shipOrderId := resp.orderId
                waybill := resp.waybill
                status := .created
                createdAt := env.now
                updatedAt := env.now }
            ⟨{ st with mappings := st.mappings ++ [mapping] }, .ok (), 1,
              r.attempts, r.delays⟩
        | .error e =>
            ⟨addToDeadLetterQueue shop shopifyOrder.id e env.now st, .error e, 1,
              r.attempts, r.delays⟩

/-! ## The ORDERS_CREATE webhook `action` -/

/-- Transport-level response of the ORDERS_CREATE route: `ack` is the
empty success response (`throw new Response()`), `notFound` the
404 "Unhandled webhook topic". -/
inductive WebhookAck
  | ack
  | notFound
  deriving Repr, DecidableEq

structure OrdersCreateResult where
  response : WebhookAck
  state : SyncState
  /-- The sync error the route caught and did not propagate, if any. -/
  caughtSyncError : Option String

/-- The ORDERS_CREATE `action`, after `authenticate.webhook` succeeded
(signature valid): on topic ORDERS_CREATE with a payload it runs the sync
and catches any error; it always ends in `throw new Response()` (empty
success ack). -/
def ordersCreateAction (env : SyncEnv) (st : SyncState) (topic : String)
    (adminPresent : Bool) (payload : Option ShopifyOrder) (shop : String) :
    OrdersCreateResult :=
  if !adminPresent then ⟨.ack, st, none⟩
  else if topic == "ORDERS_CREATE" then
    match payload with
    | none => ⟨.ack, st, none⟩
    | some order =>
        let r := syncOrderToScan2Ship env st order shop
        match r.result with
        | .ok _ => ⟨.ack, r.state, none⟩
        | .error e => ⟨.ack, r.state, some e⟩
  else ⟨.notFound, st, none⟩

/-! ## Carrier rates endpoint (second document of app.rates-sandbox.tsx) -/

structure RateLocation where
  country : String
  province : Option String := none
  city : Option String := none
  zip : Option String := none
  deriving Repr, DecidableEq

structure RateItem where
  name : String
  sku : Option String := none
  quantity : Nat
  grams : ℚ
  price : ℚ
  requires_shipping : Bool := true
  taxable : Bool := true
  deriving Repr, DecidableEq

/-- The `rate` object of a Shopify carrier-service request. An absent
`currency` field is modelled as the empty string (both are JS-falsy at
the single use site `currency || "USD"`). -/
structure ShopifyRateRequest where
  origin : RateLocation
  destination : RateLocation
  items : List RateItem
  currency : String
  deriving Repr, DecidableEq

/-- A rate as returned by the Scan2Ship rates API before transformation:
`totalPrice` is in minor units. -/
structure RawRate where
  serviceName : String
  serviceCode : String
  totalPrice : Int
  currency : String
  minDeliveryDate : String
  maxDeliveryDate : String
  description : Option String := none
  deriving Repr, DecidableEq

/-- A rate in Shopify's expected shape. -/
structure Scan2ShipRate where
  service_name : String
  service_code : String
  total_price : String
  currency : String
  min_delivery_date : String
  max_delivery_date : String
  description : Option String := none
  deriving Repr, DecidableEq

/-- Model of `(totalPrice / 100).toFixed(2)` for a minor-unit amount
`n ≥ 0`: major units with exactly two decimals. -/
def formatMinorUnits (n : Int) : String :=
  let q := n / 100
  let r := (n % 100).toNat
  toString q ++ "." ++ (if r < 10 then "0" else "") ++ toString r

/-- Environment of one carrier-rates request. `courierResp` is the
outcome of `GET /api/courier-services` (`.error` for a thrown error or
non-OK response, both caught and turned into `[]`; body field
`courierServices` may be absent). `ratesResp` is the outcome of
`POST /api/rates` (`.ok none` models a body without a `rates` array, on
which `data.rates.map` throws). `fallbackMin`/`fallbackMax` are the
computed 3-day/7-day fallback window dates. -/
structure RatesEnv where
  courierResp : Except String (Option (List String))
  ratesResp : Except String (Option (List RawRate))
  fallbackMin : String
  fallbackMax : String

/-- `getScan2ShipCourierServices()`: any failure is caught and yields
`[]`; an OK response yields `data.courierServices || []`. -/
def getScan2ShipCourierServices (env : RatesEnv) : List String :=
  match env.courierResp with
  | .ok (some services) => services
  | _ => []

/-- `getScan2ShipRates(rateRequest)`: throws when the courier-service
list is empty, when the rates call throws or is non-OK, or when the
response has no `rates` array; otherwise transforms each rate
(minor-unit price to two-decimal major units). The intermediate
`getScan2ShipOrderConfig()` call swallows its own errors and its result
is unused. -/
def getScan2ShipRates (env : RatesEnv) (_rateRequest : ShopifyRateRequest) :
    Except String (List Scan2ShipRate) :=
  let courierServices := getScan2ShipCourierServices env
  if courierServices.length = 0 then .error "No courier services available"
  else
    match env.ratesResp with
    | .error e => .error e
    | .ok none => .error "TypeError: data.rates is undefined"
    | .ok (some rates) => .ok (rates.map (fun rate =>
        { service_name := rate.serviceName
          service_code := rate.serviceCode
          total_price := formatMinorUnits rate.totalPrice
          currency := rate.currency
          min_delivery_date := rate.minDeliveryDate
          max_delivery_date := rate.maxDeliveryDate
          description := rate.description }))

/-- `getFallbackRate(currency)`: the single static fallback rate;
`currency || "USD"`. -/
def getFallbackRate (currency : String) (minDate maxDate : String) :
    Scan2ShipRate :=
  { service_name := "Standard Shipping"
    service_code := "STANDARD"
    total_price := "9.99"
    currency := if currency.isEmpty then "USD" else currency
    min_delivery_date := minDate
    max_delivery_date := maxDate
    description := some "Standard shipping service" }

/-- Response of the carrier-rates `action`: HTTP status plus either a
rates list or an error body. -/
inductive RatesBody
  | rates (rates : List Scan2ShipRate)
  | err (msg : String)
  deriving Repr, DecidableEq

structure RatesResponse where
  status : Nat
  body : RatesBody
  deriving Repr, DecidableEq

/-- One inbound carrier-rates request: HTTP method, raw body, signature
header (`none` when absent), and the outcome of `JSON.parse(body)`
together with the field accesses on it (`none` models a parse failure or
a body without the accessed `rate` fields, both of which throw). -/
structure RatesWire where
  method : String
  body : String
  signature : Option String
  parsed : Option ShopifyRateRequest
  deriving Repr, DecidableEq

/-- The protected section of the carrier-rates `action` (everything
inside its outer `try`); `.error` is an exception reaching the outer
catch. Analytics calls swallow their own errors and are invisible here. -/
def carrierRatesActionCore (digestB64 : String → String → String)
    (secret : String) (env : RatesEnv) (wire : RatesWire) :
    Except String RatesResponse :=
  match verifyShopifyHMAC digestB64 wire.body (wire.signature.getD "") secret with
  | .error e => .error e
  | .ok false => .ok ⟨401, .err "Unauthorized"⟩
  | .ok true =>
    match wire.parsed with
    | none => .error "SyntaxError: Unexpected token in JSON"
    | some rateRequest =>
      match getScan2ShipRates env rateRequest with
      | .ok rates =>
          if rates.length = 0 then
            .ok ⟨200, .rates [getFallbackRate rateRequest.currency
              env.fallbackMin env.fallbackMax]⟩
          else .ok ⟨200, .rates rates⟩
      | .error _ =>
          .ok ⟨200, .rates [getFallbackRate rateRequest.currency
            env.fallbackMin env.fallbackMax]⟩

/-- The carrier-rates `action`: non-POST ⇒ 405; any exception escaping
the outer `try` yields the USD fallback with HTTP 200; otherwise the
core's response. Total — the endpoint never throws to its caller. -/
def carrierRatesAction (digestB64 : String → String → String)
    (secret : String) (env : RatesEnv) (wire : RatesWire) : RatesResponse :=
  if wire.method != "POST" then ⟨405, .err "Method not allowed"⟩
  else
    match carrierRatesActionCore digestB64 secret env wire with
    | .ok resp => resp
    | .error _ => ⟨200, .rates [getFallbackRate "USD" env.fallbackMin env.fallbackMax]⟩

/-! ## Scan2Ship order-ready webhook (src/unnamed/part_002) -/

structure Scan2ShipWebhookPayload where
  orderRef : String
  trackingNumber : String
  carrier : String
  url : Option String := none
  status : Option String := none
  waybill : Option String := none
  timestamp : Option String := none
  deriving Repr, DecidableEq

/-- One inbound Scan2Ship webhook request: method, raw body, the
`X-Scan2Ship-Signature` and `X-Shopify-Shop-Domain` headers (`none` when
absent), and the outcome of `JSON.parse(body)`. -/
structure S2SWire where
  method : String
  body : String
  signature : Option String
  shop : Option String
  parsed : Option Scan2ShipWebhookPayload
  deriving Repr, DecidableEq

inductive S2SResponseBody
  | methodNotAllowed
  | missingShop
  | unauthorized
  | missingFields
  | success (orderRef : String)
  | serverError (msg : String)
  deriving Repr, DecidableEq

structure S2SResponse where
  status : Nat
  body : S2SResponseBody
  deriving Repr, DecidableEq

/-- Observable outcome of the Scan2Ship webhook `action`: the HTTP
response, whether `verifyScan2ShipHMAC` was invoked at all, and whether
the payload was processed (parsed and handled past the signature gate). -/
structure S2SResult where
  response : S2SResponse
  verifyCalled : Bool
  payloadProcessed : Bool
  deriving Repr, DecidableEq

/-- The Scan2Ship order-ready webhook `action`. `secret` is
`process.env.SCAN2SHIP_WEBHOOK_SECRET` (`none` when unset). The HMAC
check runs only under `if (signature && secret)`: both the signature
header and the secret must be present and nonempty. A `timingSafeEqual`
throw propagates to the outer catch (HTTP 500). -/
def scan2shipWebhookAction (digestB64 : String → String → String)
    (secret : Option String) (wire : S2SWire) : S2SResult :=
  if wire.method != "POST" then ⟨⟨405, .methodNotAllowed⟩, false, false⟩
  else if !jsTruthy wire.shop then ⟨⟨400, .missingShop⟩, false, false⟩
  else
    let afterVerify : S2SResult :=
      match wire.parsed with
      | none => ⟨⟨500, .serverError "SyntaxError: Unexpected token in JSON"⟩, true, true⟩
      | some payload =>
          if payload.orderRef.isEmpty || payload.trackingNumber.isEmpty
              || payload.carrier.isEmpty then
            ⟨⟨400, .missingFields⟩, true, true⟩
          else ⟨⟨200, .success payload.orderRef⟩, true, true⟩
    if jsTruthy wire.signature && jsTruthy secret then
      match verifyScan2ShipHMAC digestB64 wire.body (wire.signature.getD "")
          (secret.getD "") with
      | .error e => ⟨⟨500, .serverError e⟩, true, false⟩
      | .ok false => ⟨⟨401, .unauthorized⟩, true, false⟩
      | .ok true => afterVerify
    else
      { afterVerify with verifyCalled := false }

/-! ## Fulfillment write-back (app/utils/fulfillment.server.ts) -/

structure FulfillmentData where
  orderRef : String
  trackingNumber : String
  carrier : String
  url : Option String := none
  status : Option String := none
  waybill : Option String := none
  deriving Repr, DecidableEq

structure FOLineItem where
  id : String
  sku : Option String := none
  quantity : Int
  remainingQuantity : Int
  deriving Repr, DecidableEq

structure ShopifyFulfillmentOrder where
  id : String
  orderId : String
  status : String
  lineItems : List FOLineItem
  deriving Repr, DecidableEq

structure TrackingInput where
  company : String
  number : String
  url : Option String := none
  deriving Repr, DecidableEq

structure FulfillmentLineItemInput where
  id : String
  quantity : Int
  deriving Repr, DecidableEq

structure ShopifyFulfillmentInput where
  fulfillmentOrderId : String
  tracking : Option TrackingInput := none
  notifyCustomer : Option Bool := none
  lineItems : Option (List FulfillmentLineItemInput) := none
  deriving Repr, DecidableEq

/-- The variables `createFulfillment` actually passes to the
`fulfillmentCreate` GraphQL mutation; note
`notifyCustomer: fulfillmentInput.notifyCustomer || true` is always
`true`. -/
structure FulfillmentCreateVars where
  fulfillmentOrderId : String
  tracking : Option TrackingInput
  notifyCustomer : Bool
  lineItems : Option (List FulfillmentLineItemInput)
  deriving Repr, DecidableEq

def fulfillmentCreateVars (input : ShopifyFulfillmentInput) :
    FulfillmentCreateVars :=
  { fulfillmentOrderId := input.fulfillmentOrderId
    tracking := input.tracking
    notifyCustomer := input.notifyCustomer.getD false || true
    lineItems := input.lineItems }

/-- `extractShopifyOrderId(orderRef)`: matches `^SHOPIFY-(\d+)$` — the
prefix `"SHOPIFY-"` followed by one or more digits and nothing else —
and parses the digits in base 10 (`parseInt(match[1], 10)`). -/
def extractShopifyOrderId (orderRef : String) : Option Nat :=
  let cs := orderRef.data
  if cs.take 8 = "SHOPIFY-".data then
    let digits := cs.drop 8
    if digits ≠ [] ∧ digits.all (fun c => c.isDigit) then
      some (digits.foldl (fun n c => n * 10 + (c.toNat - 48)) 0)
    else none
  else none

structure CreateFulfillResult where
  fulfillmentId : String
  trackingInfo : Option TrackingInput := none
  deriving Repr, DecidableEq

/-- Environment of one `processFulfillment` run: the outcome of
`fetchFulfillmentOrders` and, per mutation variables, the outcome of the
`fulfillmentCreate` mutation (`.error` covers thrown errors, user errors
and a missing fulfillment object). -/
structure FulfillEnv where
  fetchResult : Except String (List ShopifyFulfillmentOrder)
  createResult : FulfillmentCreateVars → Except String CreateFulfillResult

/-- Observable outcome of `processFulfillment`: result and the mutation
variables sent to `fulfillmentCreate`, `none` when no creation was
attempted. -/
structure ProcessOutcome where
  result : Except String CreateFulfillResult
  createCall : Option FulfillmentCreateVars

/-- `processFulfillment(admin, fulfillmentData)`: parse the order ref,
fetch fulfillment orders, pick the first with status `OPEN`, and create a
fulfillment for all its line items with remaining quantity > 0 at their
full remaining quantities, with tracking attached and
`notifyCustomer: true`. -/
def processFulfillment (env : FulfillEnv) (fulfillmentData : FulfillmentData) :
    ProcessOutcome :=
  match extractShopifyOrderId fulfillmentData.orderRef with
  | none =>
      ⟨.error ("Invalid order reference format: " ++ fulfillmentData.orderRef), none⟩
  | some shopifyOrderId =>
    match env.fetchResult with
    | .error e => ⟨.error e, none⟩
    | .ok fulfillmentOrders =>
      if fulfillmentOrders.length = 0 then
        ⟨.error ("No fulfillment orders found for order " ++ toString shopifyOrderId),
          none⟩
      else
        match fulfillmentOrders.find? (fun fo => fo.status == "OPEN") with
        | none =>
            ⟨.error ("No open fulfillment orders found for order "
              ++ toString shopifyOrderId), none⟩
        | some openFulfillmentOrder =>
            let fulfillmentInput : ShopifyFulfillmentInput :=
              { fulfillmentOrderId := openFulfillmentOrder.id
                tracking := some
                  { company := fulfillmentData.carrier
                    number := fulfillmentData.trackingNumber
                    url := fulfillmentData.url }
                notifyCustomer := some true
                lineItems := some
                  ((openFulfillmentOrder.lineItems.filter
                      (fun item => 0 < item.remainingQuantity)).map
                    (fun item => ⟨item.id, item.remainingQuantity⟩)) }
            let vars := fulfillmentCreateVars fulfillmentInput
            ⟨env.createResult vars, some vars⟩

/-! ## Example inputs used in witnesses and counterexamples -/

/-- An operation that fails on its first two runs and succeeds on the
third. -/
def opEx : Nat → Except String CreateResp := fun i =>
  if i < 2 then .error ("e" ++ toString i) else .ok ⟨"S2S-1", none⟩

/-- A backend whose order creation always succeeds. -/
def backendOk : Nat → Except String CreateResp := fun _ =>
  .ok ⟨"S2S-1", some "WB1"⟩

/-- A backend whose order creation always fails. -/
def backendFail : Nat → Except String CreateResp := fun i =>
  .error ("Scan2Ship order creation failed: 500 - attempt " ++ toString i)

/-- The spec's example order: number 1001, total 29.99, `paid`, one
shippable line item of weight 500. -/
def orderEx : ShopifyOrder :=
  { id := 1234567890
    order_number := 1001
    name := "#1001"
    total_price := 2999 / 100
    currency := "USD"
    customer := none
    shipping_address := some
      { first_name := "Asha", last_name := "Patel"
        address1 := "1 MG Road", city := "Mumbai", province := "Maharashtra"
        country := "IN", zip := "400001" }
    billing_address := none
    line_items :=
      [{ id := 1, title := "Widget", quantity := 1, price := 2999 / 100,
         sku := some "SKU-001", weight := some 500, requires_shipping := true }]
    financial_status := "paid" }

/-- A sync environment with five credits and an always-succeeding
backend. -/
def envOk : SyncEnv :=
  { credits := .respOk (some 5), backend := backendOk, now := "T0" }

/-- A sync environment with five credits and an always-failing backend. -/
def envFail : SyncEnv :=
  { credits := .respOk (some 5), backend := backendFail, now := "T0" }

/-- The empty store state. -/
def st0 : SyncState := { mappings := [], deadLetters := [] }

/-- The example shop domain. -/
def shopEx : String := "demo.myshopify.com"

/-- First delivery of the example order (always-succeeding backend). -/
def run1 : SyncOutcome := syncOrderToScan2Ship envOk st0 orderEx shopEx

/-- Second, identical delivery of the example order, starting from the
state the first delivery left behind. -/
def run2 : SyncOutcome := syncOrderToScan2Ship envOk run1.state orderEx shopEx

/-- The example order's run against the always-failing backend. -/
def runFail : SyncOutcome := syncOrderToScan2Ship envFail st0 orderEx shopEx

/-- A minimal example rate request with currency INR. -/
def reqEx : ShopifyRateRequest :=
  { origin := { country := "IN" }, destination := { country := "IN" },
    items := [], currency := "INR" }

/-- An example rates request whose signature is exactly the digest of its
body (so verification passes under `digestZero`). -/
def wireRates : RatesWire :=
  { method := "POST", body := "rawbody", signature := some (digestZero "" ""),
    parsed := some reqEx }

/-- A rates environment in which the courier-service listing succeeds
with an empty list, so the live-rate path fails. -/
def envRatesFail : RatesEnv :=
  { courierResp := .ok (some []), ratesResp := .ok none,
    fallbackMin := "2026-10-14", fallbackMax := "2026-10-18" }

/-- An example order-ready payload with all required fields. -/
def payloadEx : Scan2ShipWebhookPayload :=
  { orderRef := "SHOPIFY-1001", trackingNumber := "1Z999AA1234567890",
    carrier := "UPS" }

/-- An order-ready request that carries no signature header. -/
def wireNoSig : S2SWire :=
  { method := "POST", body := "rawbody", signature := none, shop := some shopEx,
    parsed := some payloadEx }

/-- A well-formed (44-character, 32-byte) base64 signature that differs
from the digest `digestZero` produces. -/
def sigWrong : String := "B" ++ String.mk (List.replicate 42 'A') ++ "="

/-- An order-ready request carrying the wrong signature `sigWrong`. -/
def wireBadSig : S2SWire :=
  { method := "POST", body := "rawbody", signature := some sigWrong,
    shop := some shopEx, parsed := some payloadEx }

/-- Example fulfillment data from the Carrier Backend. -/
def fdEx : FulfillmentData :=
  { orderRef := "SHOPIFY-1001", trackingNumber := "1Z999AA1234567890",
    carrier := "UPS", url := some "https://t.example/1Z999AA1234567890" }

/-- A closed fulfillment order. -/
def foClosed : ShopifyFulfillmentOrder :=
  { id := "gid://shopify/FulfillmentOrder/1",
    orderId := "gid://shopify/Order/1001", status := "CLOSED", lineItems := [] }

/-- An open fulfillment order with one item left to ship and one already
shipped. -/
def foOpen : ShopifyFulfillmentOrder :=
  { id := "gid://shopify/FulfillmentOrder/2",
    orderId := "gid://shopify/Order/1001", status := "OPEN",
    lineItems := [⟨"li1", none, 2, 1⟩, ⟨"li2", none, 1, 0⟩] }

/-- Fulfillment environment: one closed then one open unit; the create
mutation succeeds. -/
def envFulfill : FulfillEnv :=
  { fetchResult := .ok [foClosed, foOpen],
    createResult := fun v => .ok ⟨"gid://shopify/Fulfillment/9", v.tracking⟩ }

/-- Fulfillment environment of a second, duplicate invocation: the only
unit is already closed. -/
def envFulfillClosed : FulfillEnv :=
  { fetchResult := .ok [foClosed],
    createResult := fun v => .ok ⟨"gid://shopify/Fulfillment/9", v.tracking⟩ }

/-! ## Retry engine lemmas -/

theorem retryGo_attempts_pos (op : Nat → Except ε α) (b a r : Nat) :
    1 ≤ (retryGo op b a r).attempts := by
  cases r with
  | zero => cases h : op a <;> simp [retryGo, h]
  | succ r => cases h : op a <;> simp [retryGo, h]

theorem retryGo_attempts_le (op : Nat → Except ε α) (b : Nat) :
    ∀ r a, (retryGo op b a r).attempts ≤ r + 1 := by
  intro r
  induction r with
  | zero => intro a; cases h : op a <;> simp [retryGo, h]
  | succ r ih =>
      intro a
      cases h : op a with
      | ok x => simp [retryGo, h]
      | error e =>
          have := ih (a + 1)
          simp only [retryGo, h]
          omega

theorem retryGo_delays (op : Nat → Except ε α) (b : Nat) :
    ∀ r a, (retryGo op b a r).delays =
      (List.range ((retryGo op b a r).attempts - 1)).map
        (fun k => b * 2 ^ (a + k)) := by
  intro r
  induction r with
  | zero => intro a; cases h : op a <;> simp [retryGo, h]
  | succ r ih =>
      intro a
      cases h : op a with
      | ok x => simp [retryGo, h]
      | error e =>
          have hpos := retryGo_attempts_pos op b (a + 1) r
          have hd := ih (a + 1)
          simp only [retryGo, h, Nat.add_sub_cancel]
          obtain ⟨n, hn⟩ : ∃ n, (retryGo op b (a + 1) r).attempts = n + 1 :=
            ⟨(retryGo op b (a + 1) r).attempts - 1, by omega⟩
          rw [hd, hn]
          simp only [Nat.add_sub_cancel, List.range_succ_eq_map, List.map_cons,
            List.map_map, Function.comp, Nat.add_zero]
          congr 1
          apply List.map_congr_left
          intro k _
          congr 2
          omega

theorem retryGo_all_fail (op : Nat → Except ε α) (b : Nat) :
    ∀ r a, (∀ i, a ≤ i → i ≤ a + r → ∃ e, op i = .error e) →
      (retryGo op b a r).result = op (a + r) ∧
      (retryGo op b a r).attempts = r + 1 := by
  intro r
  induction r with
  | zero =>
      intro a h
      obtain ⟨e, he⟩ := h a le_rfl (by omega)
      simp [retryGo, he]
  | succ r ih =>
      intro a h
      obtain ⟨e, he⟩ := h a le_rfl (by omega)
      have := ih (a + 1) (fun i h1 h2 => h i (by omega) (by omega))
      simp only [retryGo, he]
      refine ⟨?_, by omega⟩
      rw [this.1]
      congr 1
      omega

theorem retryGo_success (op : Nat → Except ε α) (b : Nat) :
    ∀ r a i x, a ≤ i → i ≤ a + r → op i = .ok x →
      (∀ j, a ≤ j → j < i → ∃ e, op j = .error e) →
      (retryGo op b a r).result = .ok x ∧
      (retryGo op b a r).attempts = i - a + 1 := by
  intro r
  induction r with
  | zero =>
      intro a i x h1 h2 hok _
      have : i = a := by omega
      subst this
      simp [retryGo, hok]
  | succ r ih =>
      intro a i x h1 h2 hok hfail
      rcases Nat.eq_or_lt_of_le h1 with heq | hlt
      · subst heq
        simp [retryGo, hok]
      · obtain ⟨e, he⟩ := hfail a le_rfl hlt
        have := ih (a + 1) i x (by omega) (by omega) hok
          (fun j hj1 hj2 => hfail j (by omega) hj2)
        simp only [retryGo, he]
        exact ⟨this.1, by omega⟩

/-! ## Further helper lemmas -/

theorem find?_first (p : γ → Bool) :
    ∀ (pre : List γ) (fo : γ) (post : List γ),
      (∀ u ∈ pre, p u = false) → p fo = true →
      (pre ++ fo :: post).find? p = some fo := by
  intro pre
  induction pre with
  | nil => intro fo post _ hfo; simp [List.find?, hfo]
  | cons u pre ih =>
      intro fo post hpre hfo
      have hu : p u = false := hpre u (by simp)
      simp only [List.cons_append, List.find?, hu]
      exact ih fo post (fun v hv => hpre v (by simp [hv])) hfo

/-- An order with a shipping address, or with none but a billing address,
resolves to some destination address. -/
theorem orElse_some_of_addr (order : ShopifyOrder)
    (haddr : (∃ a, order.shipping_address = some a) ∨
      (order.shipping_address = none ∧ ∃ a, order.billing_address = some a)) :
    ∃ a, order.shipping_address.orElse (fun _ => order.billing_address) = some a := by
  rcases haddr with ⟨a, ha⟩ | ⟨hnone, a, ha⟩
  · exact ⟨a, by rw [ha]; rfl⟩
  · exact ⟨a, by rw [hnone]; exact ha⟩

/-- When a destination address resolves, the order transformation
succeeds. -/
theorem mapOrder_ok_of_orElse (order : ShopifyOrder) (shop : String)
    (a : ShopifyAddress)
    (h : order.shipping_address.orElse (fun _ => order.billing_address) = some a) :
    ∃ r, mapShopifyOrderToScan2Ship order shop = .ok r := by
  unfold mapShopifyOrderToScan2Ship
  rw [h]
  exact ⟨_, rfl⟩

/-- Unfolding of `syncOrderToScan2Ship` past a sufficient credit check
and a successful transformation: only the dispatch outcome remains. -/
theorem sync_ok_unfold (env : SyncEnv) (st : SyncState) (order : ShopifyOrder)
    (shop : String) (s2s : Scan2ShipOrder)
    (hcred : (checkScan2ShipCredits env.credits).sufficient = true)
    (hmap : mapShopifyOrderToScan2Ship order shop = .ok s2s) :
    syncOrderToScan2Ship env st order shop =
      (match (retryWithBackoff env.backend 3 1000).result with
       | .ok resp =>
           ⟨{ st with mappings := st.mappings ++ [⟨shop, order.id, resp.orderId,
               resp.waybill, .created, env.now, env.now⟩] }, .ok (), 1,
             (retryWithBackoff env.backend 3 1000).attempts,
             (retryWithBackoff env.backend 3 1000).delays⟩
       | .error e =>
           ⟨addToDeadLetterQueue shop order.id e env.now st, .error e, 1,
             (retryWithBackoff env.backend 3 1000).attempts,
             (retryWithBackoff env.backend 3 1000).delays⟩) := by
  unfold syncOrderToScan2Ship
  simp only [hcred, hmap, Bool.not_true, Bool.false_eq_true, reduceIte]

/-- Every failing `syncOrderToScan2Ship` run lands in its `catch` block,
which dead-letters the error before rethrowing: the resulting state is
exactly the input state with one dead-letter entry appended. -/
theorem sync_error_state (env : SyncEnv) (st : SyncState)
    (order : ShopifyOrder) (shop : String) (e : String) :
    (syncOrderToScan2Ship env st order shop).result = .error e →
    (syncOrderToScan2Ship env st order shop).state =
      addToDeadLetterQueue shop order.id e env.now st := by
  unfold syncOrderToScan2Ship
  rcases hc : (checkScan2ShipCredits env.credits).sufficient with _ | _
  · intro h
    simp only [hc, Bool.not_false, if_pos] at h ⊢
    obtain rfl : _ = e := Except.error.inj h
    rfl
  · simp only [hc, Bool.not_true, if_neg, Bool.false_eq_true, not_false_iff]
    rcases hm : mapShopifyOrderToScan2Ship order shop with msg | s2s
    · intro h
      obtain rfl : _ = e := Except.error.inj h
      rfl
    · rcases hr : (retryWithBackoff env.backend 3 1000).result with e' | resp
      · intro h
        simp only [hr] at h ⊢
        obtain rfl : e' = e := Except.error.inj h
        rfl
      · intro h
        simp only [hr] at h
        exact absurd h (by simp)

/-! ## Claim theorems -/

/-- C6: for every operation, `maxAttempts ≥ 0` and `baseDelay`, the retry
engine runs the operation at most `maxAttempts + 1` times; the delay
before the `k`-th retry (k ≥ 1) is `baseDelay * 2 ^ (k - 1)` with no
jitter; if the operation succeeds on some attempt its result is returned
and no further attempts occur; and if the final attempt fails the last
error is propagated. -/
theorem retryWithBackoff_correct (ε α : Type) (op : Nat → Except ε α)
    (maxAttempts baseDelay : Nat) :
    (retryWithBackoff op maxAttempts baseDelay).attempts ≤ maxAttempts + 1 ∧
    (retryWithBackoff op maxAttempts baseDelay).delays =
      (List.range ((retryWithBackoff op maxAttempts baseDelay).attempts - 1)).map
        (fun k => baseDelay * 2 ^ k) ∧
    (∀ i x, i ≤ maxAttempts → op i = .ok x →
      (∀ j, j < i → ∃ e, op j = .error e) →
      (retryWithBackoff op maxAttempts baseDelay).result = .ok x ∧
      (retryWithBackoff op maxAttempts baseDelay).attempts = i + 1) ∧
    ((∀ i, i ≤ maxAttempts → ∃ e, op i = .error e) →
      (retryWithBackoff op maxAttempts baseDelay).result = op maxAttempts ∧
      (retryWithBackoff op maxAttempts baseDelay).attempts = maxAttempts + 1) := by
  refine ⟨retryGo_attempts_le op baseDelay maxAttempts 0, ?_, ?_, ?_⟩
  · have := retryGo_delays op baseDelay maxAttempts 0
    simpa [retryWithBackoff] using this
  · intro i x hi hok hfail
    have := retryGo_success op baseDelay maxAttempts 0 i x (by omega) (by omega)
      hok (fun j _ hj => hfail j hj)
    simpa [retryWithBackoff] using this
  · intro h
    have := retryGo_all_fail op baseDelay maxAttempts 0
      (fun i h1 h2 => h i (by omega))
    simpa [retryWithBackoff] using this

/-- Witness for C6: an operation failing twice then succeeding, with
`maxAttempts = 3`, `baseDelay = 1000`, returns the third run's result
after exactly 3 runs and delays 1000 then 2000. -/
theorem retryWithBackoff_correct_witness :
    (retryWithBackoff opEx 3 1000).result = .ok ⟨"S2S-1", none⟩ ∧
    (retryWithBackoff opEx 3 1000).attempts = 3 ∧
    (retryWithBackoff opEx 3 1000).delays = [1000, 2000] := by
  have h := retryWithBackoff_correct String CreateResp opEx 3 1000
  have hs := h.2.2.1 2 ⟨"S2S-1", none⟩ (by decide) (by rfl)
    (fun j hj => ⟨"e" ++ toString j, by
      have : j < 2 := hj
      simp [opEx, this]⟩)
  exact ⟨hs.1, hs.2, by decide⟩

/-- C10: when the credit-balance query itself fails (throws or non-OK),
the check reports balance 0 and insufficient, and the sync dead-letters
the order immediately with an insufficient-credits error, with exactly
one credits query, no retry of it, and no order-creation attempt. -/
theorem creditsQueryFailure_deadLetters_immediately (fetchResult : CreditsFetch)
    (backend : Nat → Except String CreateResp) (now : String) (st : SyncState)
    (order : ShopifyOrder) (shop : String)
    (hfail : ∀ b, fetchResult ≠ CreditsFetch.respOk b) :
    checkScan2ShipCredits fetchResult = ⟨0, false⟩ ∧
    (syncOrderToScan2Ship ⟨fetchResult, backend, now⟩ st order shop).result =
      .error "Insufficient credits. Balance: 0, Required: 1" ∧
    (syncOrderToScan2Ship ⟨fetchResult, backend, now⟩ st order shop).creditCalls = 1 ∧
    (syncOrderToScan2Ship ⟨fetchResult, backend, now⟩ st order shop).createCalls = 0 ∧
    (syncOrderToScan2Ship ⟨fetchResult, backend, now⟩ st order shop).state.deadLetters
      = st.deadLetters ++ [⟨shop, order.id,
          "Insufficient credits. Balance: 0, Required: 1", now, 0⟩] ∧
    (syncOrderToScan2Ship ⟨fetchResult, backend, now⟩ st order shop).state.mappings
      = st.mappings := by
  have hc : checkScan2ShipCredits fetchResult = ⟨0, false⟩ := by
    cases fetchResult with
    | throws msg => rfl
    | respErr status => rfl
    | respOk b => exact absurd rfl (hfail b)
  refine ⟨hc, ?_, ?_, ?_, ?_, ?_⟩ <;>
    simp [syncOrderToScan2Ship, hc, addToDeadLetterQueue] <;> rfl

/-- Witness for C10: a 500 from the credits endpoint dead-letters the
example order at once, with no creation attempt. -/
theorem creditsQueryFailure_witness :
    (syncOrderToScan2Ship ⟨.respErr 500, backendOk, "T0"⟩ st0 orderEx
        "demo.myshopify.com").createCalls = 0 ∧
    (syncOrderToScan2Ship ⟨.respErr 500, backendOk, "T0"⟩ st0 orderEx
        "demo.myshopify.com").state.deadLetters =
      [⟨"demo.myshopify.com", orderEx.id,
        "Insufficient credits. Balance: 0, Required: 1", "T0", 0⟩] := by
  have h := creditsQueryFailure_deadLetters_immediately (.respErr 500) backendOk
    "T0" st0 orderEx "demo.myshopify.com" (fun b hb => by cases hb)
  exact ⟨h.2.2.2.1, by rw [h.2.2.2.2.1]; rfl⟩

/-- C5: once the ORDERS_CREATE webhook is authenticated, the route
acknowledges transport-level success whatever the sync outcome; a sync
failure is caught, dead-lettered, and never propagated as an error
response. -/
theorem ordersCreate_always_acks (env : SyncEnv) (st : SyncState)
    (order : ShopifyOrder) (shop : String) :
    (ordersCreateAction env st "ORDERS_CREATE" true (some order) shop).response
      = .ack ∧
    (∀ e, (syncOrderToScan2Ship env st order shop).result = .error e →
      (ordersCreateAction env st "ORDERS_CREATE" true (some order) shop).caughtSyncError
        = some e ∧
      (ordersCreateAction env st "ORDERS_CREATE" true (some order) shop).state.deadLetters
        = st.deadLetters ++ [⟨shop, order.id, e, env.now, 0⟩]) := by
  constructor
  · unfold ordersCreateAction
    rcases h : (syncOrderToScan2Ship env st order shop).result with e | u <;>
      simp [h]
  · intro e he
    have hst := sync_error_state env st order shop e he
    unfold ordersCreateAction
    simp only [Bool.not_true, Bool.false_eq_true, if_neg, not_false_iff,
      reduceIte, he, hst]
    exact ⟨rfl, rfl⟩

/-- Witness for C5: with an always-failing backend, the route still acks,
records the caught error, and the dead-letter queue holds the failure. -/
theorem ordersCreate_always_acks_witness :
    (ordersCreateAction envFail st0 "ORDERS_CREATE" true (some orderEx)
        "demo.myshopify.com").response = .ack ∧
    (ordersCreateAction envFail st0 "ORDERS_CREATE" true (some orderEx)
        "demo.myshopify.com").caughtSyncError =
      some "Scan2Ship order creation failed: 500 - attempt 3" ∧
    (ordersCreateAction envFail st0 "ORDERS_CREATE" true (some orderEx)
        "demo.myshopify.com").state.deadLetters.length = 1 := by
  have h := ordersCreate_always_acks envFail st0 orderEx "demo.myshopify.com"
  have h2 := h.2 "Scan2Ship order creation failed: 500 - attempt 3" (by rfl)
  exact ⟨h.1, h2.1, by rw [h2.2]; rfl⟩

/-- Counterexample to C1: after a first successful delivery of the
example order, a mapping for `(shop, orderId)` with status `created`
(≠ failed) is stored, yet the second identical delivery is not a no-op:
it performs another credit check and another order-creation call, and a
second mapping row results. -/
theorem sync_second_call_not_noop :
    run1.state.mappings =
      [⟨shopEx, orderEx.id, "S2S-1", some "WB1", .created, "T0", "T0"⟩] ∧
    (∃ m ∈ run1.state.mappings, m.shop = shopEx ∧
      m.shopifyOrderId = orderEx.id ∧ m.status ≠ MappingStatus.failed) ∧
    run2.creditCalls = 1 ∧
    run2.createCalls = 1 ∧
    run1.createCalls + run2.createCalls = 2 ∧
    run2.state.mappings.length = 2 := by
  refine ⟨by rfl, ⟨_, by rw [show run1.state.mappings = _ from rfl]; exact
    List.mem_singleton.mpr rfl, rfl, rfl, by decide⟩, rfl, rfl, rfl, rfl⟩

/-- C1 amended: `syncOrderToScan2Ship` performs no idempotency lookup.
Even when an OrderMapping for `(shop, platformOrderId)` with status
≠ failed already exists, a repeated delivery performs a fresh credit
check and at least one fresh order-creation call, and (when the backend
succeeds) appends a second mapping row instead of leaving the store
unchanged. -/
theorem sync_repeats_on_duplicate (env : SyncEnv) (st : SyncState)
    (order : ShopifyOrder) (shop : String)
    (hdup : ∃ m ∈ st.mappings, m.shop = shop ∧ m.shopifyOrderId = order.id ∧
      m.status ≠ MappingStatus.failed)
    (hcred : (checkScan2ShipCredits env.credits).sufficient = true)
    (haddr : (∃ a, order.shipping_address = some a) ∨
      (order.shipping_address = none ∧ ∃ a, order.billing_address = some a)) :
    (syncOrderToScan2Ship env st order shop).creditCalls = 1 ∧
    1 ≤ (syncOrderToScan2Ship env st order shop).createCalls ∧
    (∀ resp, (retryWithBackoff env.backend 3 1000).result = .ok resp →
      (syncOrderToScan2Ship env st order shop).state.mappings =
        st.mappings ++ [⟨shop, order.id, resp.orderId, resp.waybill,
          .created, env.now, env.now⟩]) := by
  obtain ⟨a, horelse⟩ := orElse_some_of_addr order haddr
  obtain ⟨s2s, hmap⟩ := mapOrder_ok_of_orElse order shop a horelse
  refine ⟨?_, ?_, ?_⟩
  · rw [sync_ok_unfold env st order shop s2s hcred hmap]
    cases (retryWithBackoff env.backend 3 1000).result <;> rfl
  · rw [sync_ok_unfold env st order shop s2s hcred hmap]
    cases hr : (retryWithBackoff env.backend 3 1000).result <;> simp only [hr] <;>
      exact retryGo_attempts_pos env.backend 1000 0 3
  · intro resp hresp
    rw [sync_ok_unfold env st order shop s2s hcred hmap]
    simp only [hresp]

/-- Witness for the amended C1: the second delivery of the example order,
against the state already holding a `created` mapping for it, still makes
one credit call and one creation call and duplicates the mapping row. -/
theorem sync_repeats_on_duplicate_witness :
    run2.creditCalls = 1 ∧ 1 ≤ run2.createCalls ∧
    run2.state.mappings.length = 2 := by
  have h := sync_repeats_on_duplicate envOk run1.state orderEx shopEx
    ⟨⟨shopEx, orderEx.id, "S2S-1", some "WB1", .created, "T0", "T0"⟩,
      by rw [show run1.state.mappings = _ from rfl]
         exact List.mem_singleton.mpr rfl, rfl, rfl, by decide⟩
    (by rfl)
    (Or.inl ⟨_, rfl⟩)
  refine ⟨h.1, h.2.1, ?_⟩
  have := h.2.2 ⟨"S2S-1", some "WB1"⟩ (by rfl)
  rw [show run2.state.mappings =
    (syncOrderToScan2Ship envOk run1.state orderEx shopEx).state.mappings from rfl,
    this]
  rfl

/-- Counterexample to C7: with an always-failing backend the example
order yields one DeadLetterEntry whose `retryCount` is 0, not the
configured maximum of 3 retries, and no OrderMapping at all is written
(in particular none with status failed). -/
theorem deadLetter_retryCount_zero :
    runFail.state.deadLetters.map (fun d => d.retryCount) = [0] ∧
    runFail.createCalls = 4 ∧
    runFail.state.mappings = [] := by
  exact ⟨rfl, rfl, rfl⟩

/-- C7 amended: when every attempt of the retry schedule fails, exactly
one DeadLetterEntry is written, carrying the last error and a hard-coded
`retryCount` of 0, and the order-mapping store is left untouched (no
mapping is created or marked failed). -/
theorem retry_exhaustion_amended (env : SyncEnv) (st : SyncState)
    (order : ShopifyOrder) (shop : String)
    (hcred : (checkScan2ShipCredits env.credits).sufficient = true)
    (haddr : (∃ a, order.shipping_address = some a) ∨
      (order.shipping_address = none ∧ ∃ a, order.billing_address = some a))
    (hfail : ∀ i, i ≤ 3 → ∃ e, env.backend i = .error e) :
    ∃ e, env.backend 3 = .error e ∧
      (syncOrderToScan2Ship env st order shop).result = .error e ∧
      (syncOrderToScan2Ship env st order shop).state.deadLetters =
        st.deadLetters ++ [⟨shop, order.id, e, env.now, 0⟩] ∧
      (syncOrderToScan2Ship env st order shop).state.mappings = st.mappings ∧
      (syncOrderToScan2Ship env st order shop).createCalls = 4 := by
  obtain ⟨a, horelse⟩ := orElse_some_of_addr order haddr
  obtain ⟨s2s, hmap⟩ := mapOrder_ok_of_orElse order shop a horelse
  obtain ⟨e, he⟩ := hfail 3 le_rfl
  have hall := retryGo_all_fail env.backend 1000 3 0
    (fun i h1 h2 => hfail i (by omega))
  have hres : (retryWithBackoff env.backend 3 1000).result = .error e := by
    rw [show retryWithBackoff env.backend 3 1000 = retryGo env.backend 1000 0 3
      from rfl, hall.1]
    simpa using he
  have hatt : (retryWithBackoff env.backend 3 1000).attempts = 4 := by
    rw [show retryWithBackoff env.backend 3 1000 = retryGo env.backend 1000 0 3
      from rfl, hall.2]
  refine ⟨e, he, ?_, ?_, ?_, ?_⟩ <;>
      rw [sync_ok_unfold env st order shop s2s hcred hmap] <;>
      simp only [hres, addToDeadLetterQueue] <;>
    try rfl
  exact hatt

/-- Witness for the amended C7: the always-failing backend run on the
example order dead-letters once with `retryCount` 0 and leaves the
mapping store empty. -/
theorem retry_exhaustion_amended_witness :
    runFail.result = .error "Scan2Ship order creation failed: 500 - attempt 3" ∧
    runFail.state.deadLetters =
      [⟨shopEx, orderEx.id,
        "Scan2Ship order creation failed: 500 - attempt 3", "T0", 0⟩] ∧
    runFail.state.mappings = [] := by
  obtain ⟨e, he, hres, hdl, hmap, _⟩ := retry_exhaustion_amended envFail st0
    orderEx shopEx (by rfl) (Or.inl ⟨_, rfl⟩)
    (fun i _ => ⟨"Scan2Ship order creation failed: 500 - attempt " ++ toString i,
      rfl⟩)
  obtain rfl : e = "Scan2Ship order creation failed: 500 - attempt 3" :=
    (Except.error.inj he.symm)
  exact ⟨hres, by rw [show runFail.state.deadLetters =
      (syncOrderToScan2Ship envFail st0 orderEx shopEx).state.deadLetters
      from rfl, hdl]; rfl,
    hmap⟩

/-- C8: the derived CarrierOrderRequest uses the shipping address when
present, else the billing address, and fails with the missing-address
error when neither exists; `cod` holds exactly for financial status
`pending` or `partially_paid`; line items are exactly the shippable ones
with weight defaulting to 0; `declaredValue` is the order total; and the
reference is `"SHOPIFY-" ++ order_number`. -/
theorem mapShopifyOrder_correct (order : ShopifyOrder) (shop : String) :
    (order.shipping_address = none → order.billing_address = none →
      mapShopifyOrderToScan2Ship order shop =
        .error "No shipping or billing address found") ∧
    (∀ a, (order.shipping_address = some a ∨
        (order.shipping_address = none ∧ order.billing_address = some a)) →
      ∃ r, mapShopifyOrderToScan2Ship order shop = .ok r ∧
        r.address.city = a.city ∧
        r.address.state = a.province ∧
        r.address.country = a.country ∧
        r.address.postalCode = a.zip ∧
        r.cod = (order.financial_status == "pending"
          || order.financial_status == "partially_paid") ∧
        r.lineItems = (order.line_items.filter (·.requires_shipping)).map
          (fun item => ⟨item.title, item.sku, item.quantity,
            item.weight.getD 0, item.price⟩) ∧
        r.declaredValue = order.total_price ∧
        r.reference = "SHOPIFY-" ++ toString order.order_number) := by
  constructor
  · intro h1 h2
    unfold mapShopifyOrderToScan2Ship
    rw [show order.shipping_address.orElse (fun _ => order.billing_address)
      = none by rw [h1]; exact h2]
  · intro a ha
    have horelse : order.shipping_address.orElse
        (fun _ => order.billing_address) = some a := by
      rcases ha with ha | ⟨hnone, ha⟩
      · rw [ha]; rfl
      · rw [hnone]; exact ha
    refine ⟨_, by unfold mapShopifyOrderToScan2Ship; rw [horelse], ?_, ?_, ?_,
      ?_, ?_, ?_, ?_, ?_⟩ <;> rfl

/-- Witness for C8 on the spec's example scenario: order number 1001,
total 29.99, financial status `paid`, one shippable line item of
weight 500. -/
theorem mapShopifyOrder_correct_witness :
    ∃ r, mapShopifyOrderToScan2Ship orderEx shopEx = .ok r ∧
      r.cod = false ∧
      r.declaredValue = 2999 / 100 ∧
      r.reference = "SHOPIFY-1001" ∧
      r.lineItems.map (fun i => i.weight) = [500] := by
  obtain ⟨r, hr, _, _, _, _, hcod, hitems, hdecl, href⟩ :=
    (mapShopifyOrder_correct orderEx shopEx).2
      { first_name := "Asha", last_name := "Patel"
        address1 := "1 MG Road", city := "Mumbai", province := "Maharashtra"
        country := "IN", zip := "400001" } (Or.inl rfl)
  refine ⟨r, hr, ?_, ?_, ?_, ?_⟩
  · rw [hcod]; rfl
  · rw [hdecl]; rfl
  · rw [href]; rfl
  · rw [hitems]; rfl

/-- C2: once signature verification has passed, any failure of the
live-rate path — empty courier-service list, a throwing or non-OK
backend call, a malformed response, or an empty rate list — makes the
rates endpoint answer HTTP 200 with exactly one static fallback
RateQuote whose currency is the request currency, or "USD" when the
request currency is absent; the endpoint never surfaces the error. -/
theorem rates_fallback_guarantee (digestB64 : String → String → String)
    (secret : String) (env : RatesEnv) (wire : RatesWire)
    (req : ShopifyRateRequest)
    (hmethod : wire.method = "POST")
    (hparse : wire.parsed = some req)
    (hsig : verifyShopifyHMAC digestB64 wire.body (wire.signature.getD "")
      secret = .ok true)
    (hfail : (∃ e, getScan2ShipRates env req = .error e) ∨
      getScan2ShipRates env req = .ok []) :
    carrierRatesAction digestB64 secret env wire =
      ⟨200, .rates [getFallbackRate req.currency env.fallbackMin
        env.fallbackMax]⟩ ∧
    (getFallbackRate req.currency env.fallbackMin env.fallbackMax).currency =
      (if req.currency = "" then "USD" else req.currency) ∧
    (getScan2ShipCourierServices env = [] →
      getScan2ShipRates env req = .error "No courier services available") := by
  have hcore : carrierRatesActionCore digestB64 secret env wire =
      .ok ⟨200, .rates [getFallbackRate req.currency env.fallbackMin
        env.fallbackMax]⟩ := by
    unfold carrierRatesActionCore
    rcases hfail with ⟨e, he⟩ | hok
    · simp only [hsig, hparse, he]
    · simp only [hsig, hparse, hok, List.length_nil, reduceIte]
  refine ⟨?_, ?_, ?_⟩
  · unfold carrierRatesAction
    rw [hcore]
    simp [hmethod]
  · by_cases hc : req.currency = ""
    · simp only [getFallbackRate, hc, reduceIte]
      rfl
    · simp [getFallbackRate, String.isEmpty_iff, hc]
  · intro h
    simp [getScan2ShipRates, h]

/-- Witness for C2: with an empty courier-service list and an INR
request, the endpoint answers 200 with the single INR fallback rate. -/
theorem rates_fallback_guarantee_witness :
    carrierRatesAction digestZero "s" envRatesFail wireRates =
      ⟨200, .rates [⟨"Standard Shipping", "STANDARD", "9.99", "INR",
        "2026-10-14", "2026-10-18", some "Standard shipping service"⟩]⟩ := by
  have h := rates_fallback_guarantee digestZero "s" envRatesFail wireRates
    reqEx rfl rfl (by rfl) (Or.inl ⟨"No courier services available", by rfl⟩)
  rw [h.1]
  rfl

/-- Counterexample to C3: with a Carrier-Backend webhook secret
configured but the request carrying no signature header, the order-ready
endpoint never invokes the verifier, does not answer 401, and processes
the payload to a 200 success. -/
theorem s2s_missing_signature_bypasses_verification :
    scan2shipWebhookAction digestZero (some "topsecret") wireNoSig =
      ⟨⟨200, .success "SHOPIFY-1001"⟩, false, true⟩ := by
  rfl

/-- C3 amended: signature verification runs only when both a webhook
secret is configured and the request carries a nonempty signature
header; in that case an invalid signature is rejected with 401 before
any payload processing (no internal detail leaks). When the signature
header is absent, the request is processed unverified even though a
secret is configured. -/
theorem s2s_verification_gate (digestB64 : String → String → String)
    (secret : Option String) (wire : S2SWire)
    (hmethod : wire.method = "POST")
    (hshop : jsTruthy wire.shop = true) :
    ((jsTruthy wire.signature && jsTruthy secret) = true →
      verifyScan2ShipHMAC digestB64 wire.body (wire.signature.getD "")
        (secret.getD "") = .ok false →
      scan2shipWebhookAction digestB64 secret wire =
        ⟨⟨401, .unauthorized⟩, true, false⟩) ∧
    ((jsTruthy wire.signature && jsTruthy secret) = false →
      (scan2shipWebhookAction digestB64 secret wire).verifyCalled = false) := by
  constructor
  · intro hb hv
    unfold scan2shipWebhookAction
    simp only [hmethod, hshop, hb, hv, Bool.not_true, Bool.false_eq_true,
      reduceIte, bne_self_eq_false]
  · intro hb
    unfold scan2shipWebhookAction
    simp only [hmethod, hshop, hb, Bool.not_true, Bool.false_eq_true,
      reduceIte, bne_self_eq_false]

/-- Witness for the amended C3: a syntactically well-formed but wrong
signature, with a secret configured, is rejected with 401 before the
payload is touched. -/
theorem s2s_verification_gate_witness :
    scan2shipWebhookAction digestZero (some "topsecret") wireBadSig =
      ⟨⟨401, .unauthorized⟩, true, false⟩ := by
  exact (s2s_verification_gate digestZero (some "topsecret") wireBadSig rfl
    rfl).1 rfl (by rfl)

/-- Counterexample to C4: the verifier does not totally compute a
boolean — for a base64 signature whose decoding is shorter than the
32-byte HMAC-SHA256 digest ("AAAA" decodes to 3 bytes), the
`crypto.timingSafeEqual` call throws (modelled as `.error`) instead of
returning false, with nonempty signature and secret. -/
theorem verify_throws_on_short_signature :
    verifyScan2ShipHMAC digestZero "body" "AAAA" "secret" =
      .error "Input buffers must have the same byte length" := by
  rfl

/-- C4 amended: the verifier returns false (without throwing) for an
empty signature or empty secret; for nonempty inputs it throws exactly
when the provided signature's base64 decoding does not have the digest's
32-byte length, and otherwise returns the constant-time byte comparison
— in particular false for any same-length signature computed with a
different secret whose digest differs. -/
theorem verify_amended (digestB64 : String → String → String)
    (body signature secret : String)
    (hd : (base64Decode (digestB64 body secret)).length = 32) :
    (signature = "" ∨ secret = "" →
      verifyScan2ShipHMAC digestB64 body signature secret = .ok false ∧
      verifyShopifyHMAC digestB64 body signature secret = .ok false) ∧
    (signature ≠ "" → secret ≠ "" → (base64Decode signature).length ≠ 32 →
      verifyScan2ShipHMAC digestB64 body signature secret =
        .error "Input buffers must have the same byte length") ∧
    (signature ≠ "" → secret ≠ "" → (base64Decode signature).length = 32 →
      verifyScan2ShipHMAC digestB64 body signature secret =
        .ok (decide (base64Decode signature =
          base64Decode (digestB64 body secret)))) ∧
    (∀ secret2, secret ≠ "" → digestB64 body secret2 ≠ "" →
      (base64Decode (digestB64 body secret2)).length = 32 →
      base64Decode (digestB64 body secret2) ≠
        base64Decode (digestB64 body secret) →
      verifyScan2ShipHMAC digestB64 body (digestB64 body secret2) secret =
        .ok false) := by
  have hthird : ∀ s, s ≠ "" → secret ≠ "" → (base64Decode s).length = 32 →
      verifyScan2ShipHMAC digestB64 body s secret =
        .ok (decide (base64Decode s = base64Decode (digestB64 body secret))) := by
    intro s hs hsec hlen
    unfold verifyScan2ShipHMAC timingSafeEqual
    rw [if_neg (by simp [hs, hsec]), if_pos (by rw [hlen, hd])]
  refine ⟨?_, ?_, hthird signature, ?_⟩
  · intro h
    constructor <;>
      [unfold verifyScan2ShipHMAC; unfold verifyShopifyHMAC] <;>
      rw [if_pos h]
  · intro hs hsec hlen
    unfold verifyScan2ShipHMAC timingSafeEqual
    rw [if_neg (by simp [hs, hsec]), if_neg (by rw [hd]; exact hlen)]
  · intro secret2 hsec hs2 hlen2 hne
    rw [hthird (digestB64 body secret2) hs2 hsec hlen2,
      decide_eq_false hne]

/-- Witness for the amended C4: a 32-byte signature differing from the
digest verifies to false without throwing. -/
theorem verify_amended_witness :
    verifyScan2ShipHMAC digestZero "body" sigWrong "secret" = .ok false := by
  have h := (verify_amended digestZero "body" sigWrong "secret" (by rfl)).2.2.1
    (by decide) (by decide) (by rfl)
  rw [h]
  rfl

/-- C9: for a payload whose order reference parses, the write-back picks
the first fulfillment unit with status OPEN and sends one
`fulfillmentCreate` mutation covering exactly the line items with
remaining quantity > 0, each at its full remaining quantity, with the
carrier name, tracking number and optional URL attached and customer
notification enabled; and when units exist but none is OPEN (e.g. a
duplicate second invocation) the outcome is the no-open-fulfillment
error and no mutation is sent. -/
theorem processFulfillment_correct (env : FulfillEnv) (fd : FulfillmentData)
    (oid : Nat) (href : extractShopifyOrderId fd.orderRef = some oid) :
    (∀ pre fo post, env.fetchResult = .ok (pre ++ fo :: post) →
      (∀ u ∈ pre, u.status ≠ "OPEN") → fo.status = "OPEN" →
      (processFulfillment env fd).createCall = some
        ⟨fo.id, some ⟨fd.carrier, fd.trackingNumber, fd.url⟩, true,
          some ((fo.lineItems.filter (fun i => 0 < i.remainingQuantity)).map
            (fun i => ⟨i.id, i.remainingQuantity⟩))⟩ ∧
      (processFulfillment env fd).result = env.createResult
        ⟨fo.id, some ⟨fd.carrier, fd.trackingNumber, fd.url⟩, true,
          some ((fo.lineItems.filter (fun i => 0 < i.remainingQuantity)).map
            (fun i => ⟨i.id, i.remainingQuantity⟩))⟩) ∧
    (∀ fos, env.fetchResult = .ok fos → fos ≠ [] →
      (∀ u ∈ fos, u.status ≠ "OPEN") →
      (processFulfillment env fd).result =
        .error ("No open fulfillment orders found for order " ++ toString oid) ∧
      (processFulfillment env fd).createCall = none) := by
  constructor
  · intro pre fo post hfetch hpre hfo
    have hfind : (pre ++ fo :: post).find? (fun u => u.status == "OPEN")
        = some fo :=
      find?_first _ pre fo post
        (fun u hu => by simp [hpre u hu]) (by simp [hfo])
    have hne : (pre ++ fo :: post).length ≠ 0 := by simp
    unfold processFulfillment
    simp only [href, hfetch, hne, reduceIte, hfind, fulfillmentCreateVars]
    refine ⟨?_, ?_⟩ <;> first | rfl | trivial
  · intro fos hfetch hnil hall
    have hfind : fos.find? (fun u => u.status == "OPEN") = none :=
      List.find?_eq_none.mpr (fun u hu => by simp [hall u hu])
    have hne : fos.length ≠ 0 := by
      simpa [List.length_eq_zero] using hnil
    unfold processFulfillment
    simp only [href, hfetch, hne, reduceIte, hfind]
    refine ⟨?_, ?_⟩ <;> first | rfl | trivial

/-- Witness for C9: with one CLOSED and one OPEN unit the mutation covers
exactly the single item with remaining quantity 1; with only a CLOSED
unit (duplicate invocation) the result is the no-open-fulfillment error
and no mutation. -/
theorem processFulfillment_correct_witness :
    (processFulfillment envFulfill fdEx).createCall = some
      ⟨"gid://shopify/FulfillmentOrder/2",
        some ⟨"UPS", "1Z999AA1234567890",
          some "https://t.example/1Z999AA1234567890"⟩, true,
        some [⟨"li1", 1⟩]⟩ ∧
    (processFulfillment envFulfill fdEx).result =
      .ok ⟨"gid://shopify/Fulfillment/9",
        some ⟨"UPS", "1Z999AA1234567890",
          some "https://t.example/1Z999AA1234567890"⟩⟩ ∧
    (processFulfillment envFulfillClosed fdEx).result =
      .error "No open fulfillment orders found for order 1001" ∧
    (processFulfillment envFulfillClosed fdEx).createCall = none := by
  have h1 := (processFulfillment_correct envFulfill fdEx 1001 (by rfl)).1
    [foClosed] foOpen [] rfl
    (fun u hu => by
      rw [List.mem_singleton] at hu
      subst hu
      decide)
    (by rfl)
  have h2 := (processFulfillment_correct envFulfillClosed fdEx 1001 (by rfl)).2
    [foClosed] rfl (by decide)
    (fun u hu => by
      rw [List.mem_singleton] at hu
      subst hu
      decide)
  refine ⟨by rw [h1.1]; rfl, by rw [h1.2]; rfl, by rw [h2.1]; rfl, h2.2⟩

end Scan2Ship
